import Mathlib

/-!
Verification of `oscar/apps/catalogue/views.py` (django-oscar catalogue
browsing views): `ProductDetailView` and `ProductCategoryView`.

The view code in `views.py` is embedded faithfully below.  The entity
models (`Product`, `Category`, `ProductAlert`), the haystack search
query API, Django's `urlquote`, and the `FacetMunger` live outside the
provided source; where the views depend on them they are modelled from
the design spec, each such definition marked `Modelled from the spec:`.
-/

/-- Modelled from the spec: a `Category` row of the entity store.
The views read its name, its full hierarchical name (used by the search
narrow filter), and its canonical (absolute) URL; `cid` is the primary
key. -/
structure Category where
  cid : Nat
  slug : String
  name : String
  full_name : String
  absolute_url : String
deriving DecidableEq, Repr

/-- Modelled from the spec: the category hierarchy exposed by the entity
store ("hierarchy ancestor/descendant traversal").  A forest is either
empty or a root category with its children forest and its sibling
forest. -/
inductive CatForest where
  | leaf : CatForest
  | node (c : Category) (children : CatForest) (siblings : CatForest) : CatForest
deriving DecidableEq, Repr

/-- All categories stored in a forest, in depth-first order. -/
def forestCats : CatForest → List Category
  | .leaf => []
  | .node c ch sib => c :: (forestCats ch ++ forestCats sib)

/-- Whether a category occurs anywhere in a forest. -/
def containsCat : CatForest → Category → Bool
  | .leaf, _ => false
  | .node c ch sib, t => c = t || containsCat ch t || containsCat sib t

/-- The proper ancestors of `t` inside forest `f`: every category whose
children forest contains `t`. -/
def ancestorsOf : CatForest → Category → List Category
  | .leaf, _ => []
  | .node c ch sib, t =>
      (if containsCat ch t then [c] else []) ++ ancestorsOf ch t ++ ancestorsOf sib t

/-- Look a category up in the forest, returning it together with its
children forest (the store handle the hierarchy traversals run on). -/
def findNode : CatForest → Category → Option (Category × CatForest)
  | .leaf, _ => none
  | .node c ch sib, t =>
      if c = t then some (c, ch)
      else match findNode ch t with
        | some r => some r
        | none => findNode sib t

/-- Modelled from the spec: `Category.get_descendants_and_self()` is
defined on the category model outside the provided source.  Per its name
and the spec's note that "a parent category's search includes all
descendants", it returns the category itself followed by every category
below it in the hierarchy. -/
def get_descendants_and_self (c : Category) (children : CatForest) : List Category :=
  c :: forestCats children

/-- Embeds `ProductCategoryView.get_categories`: `[]` when no category was
resolved, otherwise `self.category.get_descendants_and_self()`
(memoised on `self._descendants`; the cache is request-local state and
is elided in this pure embedding). -/
def ProductCategoryView.get_categories : Option (Category × CatForest) → List Category
  | none => []
  | some (c, ch) => get_descendants_and_self c ch

/-- Modelled from the spec: the part of a `Product` row the views read —
UPC, product-class slug, canonical (absolute) URL, the set of categories
it belongs to (by primary key), and its own primary key `pid`. -/
structure ProductBase where
  pid : Nat
  upc : String
  class_slug : String
  absolute_url : String
  categories : List Category
deriving DecidableEq, Repr

/-- Modelled from the spec: a product together with its optional parent
("parent/variant relationship").  The views only ever read the parent's
canonical URL, one level up. -/
structure Product extends ProductBase where
  parent : Option ProductBase
deriving DecidableEq, Repr

/-- Modelled from the spec: "a variant always redirects to its parent's
canonical URL" — a product is a variant exactly when it has a parent. -/
def Product.is_variant (p : Product) : Bool :=
  p.parent.isSome

/-- Characters Python's `urllib.parse.quote` leaves unescaped with
`safe='/'` (Django's `urlquote` default): ASCII letters, digits,
`_.-~` and `/`. -/
def urlquoteSafe (c : Char) : Bool :=
  c.isAlpha || c.isDigit || c = '_' || c = '.' || c = '-' || c = '~' || c = '/'

/-- Uppercase hex digit of a value below 16. -/
def hexDigit (n : Nat) : Char :=
  if n < 10 then Char.ofNat (48 + n) else Char.ofNat (55 + n)

/-- UTF-8 byte sequence of a character. -/
def utf8Bytes (c : Char) : List Nat :=
  let n := c.toNat
  if n < 0x80 then [n]
  else if n < 0x800 then [0xC0 + n / 0x40, 0x80 + n % 0x40]
  else if n < 0x10000 then
    [0xE0 + n / 0x1000, 0x80 + (n / 0x40) % 0x40, 0x80 + n % 0x40]
  else
    [0xF0 + n / 0x40000, 0x80 + (n / 0x1000) % 0x40, 0x80 + (n / 0x40) % 0x40,
      0x80 + n % 0x40]

/-- A byte rendered as `%XX`. -/
def percentEncodeByte (b : Nat) : List Char :=
  ['%', hexDigit (b / 16), hexDigit (b % 16)]

/-- Modelled from the spec: `django.utils.http.urlquote` ("consistent
URL-escaping normalization"), i.e. `urllib.parse.quote(url, safe='/')`:
safe characters pass through, every other character is replaced by the
percent-encoding of its UTF-8 bytes. -/
def urlquote (s : String) : String :=
  String.mk (s.data.flatMap fun c =>
    if urlquoteSafe c then [c] else (utf8Bytes c).flatMap percentEncodeByte)

/-- Response `HttpResponsePermanentRedirect(location)` (HTTP 301). -/
structure PermRedirect where
  location : String
deriving DecidableEq, Repr

/-- Embeds `ProductDetailView.redirect_if_necessary(current_path, product)`:
under path enforcement a variant unconditionally redirects to its
parent's canonical URL; otherwise the canonical URL is compared against
`urlquote(current_path)` and a mismatch redirects.  Returning `none`
means no redirect. -/
def ProductDetailView.redirect_if_necessary (enforce_paths : Bool)
    (current_path : String) (p : Product) : Option PermRedirect :=
  if enforce_paths then
    match p.parent with
    | some parent => some ⟨parent.absolute_url⟩
    | none =>
        if p.absolute_url ≠ urlquote current_path then some ⟨p.absolute_url⟩
        else none
  else none

/-- Embeds `ProductCategoryView.redirect_if_necessary(current_path, category)`:
under path enforcement, a resolved category whose canonical URL differs
from `urlquote(current_path)` redirects; a null category never does. -/
def ProductCategoryView.redirect_if_necessary (enforce_paths : Bool)
    (current_path : String) (category : Option (Category × CatForest)) :
    Option PermRedirect :=
  if enforce_paths then
    match category with
    | some (c, _) =>
        if c.absolute_url ≠ urlquote current_path then some ⟨c.absolute_url⟩
        else none
    | none => none
  else none

/-- Class attribute `ProductDetailView.enforce_paths = True`. -/
def ProductDetailView.enforce_paths : Bool := true

/-- Class attribute `ProductCategoryView.enforce_paths = True`. -/
def ProductCategoryView.enforce_paths : Bool := true

/-- Class attribute `ProductCategoryView.use_search_backend = True`. -/
def ProductCategoryView.use_search_backend : Bool := true

/-- Class attribute `ProductDetailView.template_folder = "catalogue"`. -/
def ProductDetailView.template_folder : String := "catalogue"

/-- Modelled from the spec: the status values of a `ProductAlert`
subscription record; `ProductAlert.ACTIVE` is `.active`. -/
inductive AlertState where
  | unconfirmed | active | cancelled | closed
deriving DecidableEq, Repr

/-- Modelled from the spec: a subscription record of the
alert-subscription store, keyed by (user, product) with a status. -/
structure ProductAlert where
  user_id : Nat
  product_id : Nat
  status : AlertState
deriving DecidableEq, Repr

/-- Modelled from the spec: the requesting user — a primary key plus the
`is_authenticated()` flag the view branches on. -/
structure User where
  uid : Nat
  is_authenticated : Bool
deriving DecidableEq, Repr

/-- Embeds `ProductDetailView.get_alert_status`: starts from `has_alert =
False`; only for an authenticated user does it query the store for
records matching this product, this user and status `ACTIVE` and test
existence.  The second component counts the store queries issued (0 on
the unauthenticated short-circuit, 1 otherwise). -/
def ProductDetailView.get_alert_status (store : List ProductAlert) (u : User)
    (p : Product) : Bool × Nat :=
  if u.is_authenticated then
    let alerts := store.filter fun a =>
      a.product_id = p.pid && a.user_id = u.uid && a.status = AlertState.active
    (!alerts.isEmpty, 1)
  else (false, 0)

/-- Modelled from the spec: review status values of `ProductReview`;
`ProductReview.APPROVED` is `.approved`. -/
inductive ReviewState where
  | for_moderation | approved | rejected
deriving DecidableEq, Repr

/-- Modelled from the spec: a product review row; the view only filters
on its status. -/
structure ProductReview where
  rid : Nat
  status : ReviewState
deriving DecidableEq, Repr

/-- Embeds `ProductDetailView.get_reviews`: `self.object.reviews.filter(
status=ProductReview.APPROVED)` over the product's review rows. -/
def ProductDetailView.get_reviews (reviews : List ProductReview) : List ProductReview :=
  reviews.filter fun r => r.status = ReviewState.approved

/-- Python truthiness of `self.template_name` (`None` and the empty
string are falsy). -/
def templateNameSet : Option String → Bool
  | none => false
  | some s => !s.isEmpty

/-- Embeds `ProductDetailView.get_template_names`: an explicitly configured
`template_name` wins alone; otherwise the per-UPC, per-product-class
and generic detail templates, in that order. -/
def ProductDetailView.get_template_names (template_name : Option String)
    (template_folder : String) (p : Product) : List String :=
  if templateNameSet template_name then [template_name.getD ""]
  else
    [template_folder ++ "/detail-for-upc-" ++ p.upc ++ ".html",
     template_folder ++ "/detail-for-class-" ++ p.class_slug ++ ".html",
     template_folder ++ "/detail.html"]

/-- The haystack `SearchQuerySet` as the views drive it: the list of
`narrow` filter expressions applied so far, and whether `load_all()`
(eager join of result objects to their entities) was requested. -/
structure SQS where
  narrows : List String
  load_all_set : Bool
deriving DecidableEq, Repr

/-- Modelled from the spec: `facets.base_sqs()` — the base search query
of the search collaborator, with no narrowing applied yet. -/
def facets.base_sqs : SQS := ⟨[], false⟩

/-- Method `SearchQuerySet.narrow(expr)` appends a filter expression. -/
def SQS.narrow (s : SQS) (expr : String) : SQS :=
  { s with narrows := s.narrows ++ [expr] }

/-- Method `SearchQuerySet.load_all()` marks eager entity joining. -/
def SQS.load_all (s : SQS) : SQS :=
  { s with load_all_set := true }

/-- Embeds `ProductCategoryView.get_search_queryset`: start from the base
query; when the lineage is non-empty, narrow by
`category_exact:("n1" OR "n2" OR ...)` over the lineage's full
hierarchical names; finally `load_all()`. -/
def ProductCategoryView.get_search_queryset
    (category : Option (Category × CatForest)) : SQS :=
  let sqs := facets.base_sqs
  let categories := ProductCategoryView.get_categories category
  let sqs :=
    if !categories.isEmpty then
      sqs.narrow ("category_exact:(" ++
        String.intercalate " OR "
          (categories.map fun c => "\"" ++ c.full_name ++ "\"") ++ ")")
    else sqs
  sqs.load_all

/-- The SQL rows produced by
`qs.filter(categories__in=categories)` on the many-to-many join: one
row per (product, matching category) pair, before `DISTINCT`. -/
def categoriesInRows (all_products : List Product) (cats : List Category) :
    List Product :=
  all_products.flatMap fun p =>
    (p.categories.filter fun c => c ∈ cats).map fun _ => p

/-- Embeds `ProductCategoryView.get_model_queryset`: the browsable base
queryset, and when a category is resolved, the `categories__in`
filter over the lineage followed by `distinct()` (modelled as
`List.dedup`). -/
def ProductCategoryView.get_model_queryset (all_products : List Product)
    (category : Option (Category × CatForest)) : List Product :=
  match category with
  | none => all_products
  | some (c, ch) =>
      (categoriesInRows all_products
        (ProductCategoryView.get_categories (some (c, ch)))).dedup

/-- The two queryset shapes `ProductCategoryView.get_queryset` can
return: a database queryset of products or a search queryset. -/
inductive Listing where
  | db (products : List Product)
  | search (sqs : SQS)
deriving DecidableEq, Repr

/-- Embeds `ProductCategoryView.get_queryset`: the search queryset when
`use_search_backend` is set, the model queryset otherwise. -/
def ProductCategoryView.get_queryset (use_search_backend : Bool)
    (all_products : List Product) (category : Option (Category × CatForest)) :
    Listing :=
  if use_search_backend then
    Listing.search (ProductCategoryView.get_search_queryset category)
  else
    Listing.db (ProductCategoryView.get_model_queryset all_products category)

/-- Embeds `ProductCategoryView.get_summary`: the category name, or the
localized "All products" label when no category is resolved. -/
def ProductCategoryView.get_summary (category : Option (Category × CatForest)) :
    String :=
  match category with
  | some (c, _) => c.name
  | none => "All products"

/-- One display entry of a shaped facet field: value, count, selected
flag. -/
structure FacetEntry where
  value : String
  count : Nat
  selected : Bool
deriving DecidableEq, Repr

/-- A shaped facet field as the munger emits it: its list under the
`results` key. -/
structure FacetField where
  results : List FacetEntry
deriving DecidableEq, Repr

/-- The munger's output dictionary: facet field name to shaped field. -/
abbrev FacetData : Type := List (String × FacetField)

/-- Haystack's raw aggregate facet counts, per field and value. -/
abbrev FacetCounts : Type := List (String × List (String × Nat))

/-- A haystack search result row, resolvable to its product entity via
`r.object`. -/
structure SearchResult where
  object : Product
deriving DecidableEq, Repr

/-- Modelled from the spec: the executed search result set — a sequence
of result rows plus aggregate facet-count data. -/
structure SearchResultSet where
  results : List SearchResult
  facet_counts : FacetCounts

/-- Modelled from the spec: the `FacetMunger` is a "pure function of
(current request path, existing filter selections, raw facet counts) →
display-ready facet structure"; its body lives outside the provided
source, so it is kept abstract as a function argument. -/
abbrev Munger : Type := String → List (String × String) → FacetCounts → FacetData

/-- What `ProductCategoryView.get_search_context_data` contributes to
the context: shaped facet data, the `has_facets` flag, and the product
entities plucked off the paginated result rows. -/
structure SearchContextData where
  facet_data : FacetData
  has_facets : Bool
  products : List Product

/-- Embeds `ProductCategoryView.get_search_context_data(paginated_results)`:
the munger is fed the full request path, no selections (`{}`) and
`self.object_list.facet_counts()` — the facet counts of the FULL result
set; `has_facets` is Python `any` over the truthiness of each shaped
field's `results` list; the product entities come from the paginated
rows only. -/
def ProductCategoryView.get_search_context_data (munger : Munger)
    (full_path : String) (object_list : SearchResultSet)
    (paginated_results : List SearchResult) : SearchContextData :=
  let facet_data := munger full_path [] object_list.facet_counts
  let has_facets := facet_data.any fun kv => !kv.2.results.isEmpty
  let objects := paginated_results.map fun r => r.object
  ⟨facet_data, has_facets, objects⟩

/-- Django pagination of an object list: page `n` (1-based) of size
`per_page`. -/
def paginatePage (per_page page_num : Nat) (xs : List α) : List α :=
  (xs.drop ((page_num - 1) * per_page)).take per_page

/-- The context `ProductCategoryView.get_context_data` hands to the
renderer: category, summary label, the paginated object list, and — in
search mode — the search context bundle. -/
structure CategoryContext where
  category : Option Category
  summary : String
  products : List Product
  search_data : Option SearchContextData

/-- Embeds `ProductCategoryView.get_context_data`: the base `ListView` context
(paginated `object_list` of `get_queryset`) extended with `category`
and `summary`; in search mode it is updated with
`get_search_context_data(context['object_list'])`, which replaces the
`products` entry by the entities plucked from the page. -/
def ProductCategoryView.get_context_data (use_search_backend : Bool)
    (munger : Munger) (full_path : String) (backend : SQS → SearchResultSet)
    (all_products : List Product) (per_page page_num : Nat)
    (category : Option (Category × CatForest)) : CategoryContext :=
  let summary := ProductCategoryView.get_summary category
  if use_search_backend then
    let object_list := backend (ProductCategoryView.get_search_queryset category)
    let page := paginatePage per_page page_num object_list.results
    let sdata := ProductCategoryView.get_search_context_data munger full_path
      object_list page
    ⟨category.map Prod.fst, summary, sdata.products, some sdata⟩
  else
    let object_list := ProductCategoryView.get_model_queryset all_products category
    let page := paginatePage per_page page_num object_list
    ⟨category.map Prod.fst, summary, page, none⟩

/-- A terminal response of `ProductCategoryView.get`: the permanent
redirect, or a rendered page with its context. -/
inductive CategoryResponse where
  | redirect (r : PermRedirect)
  | rendered (ctx : CategoryContext)

/-- Embeds `ProductCategoryView.get`: resolve the category, return the
canonical-path redirect when one is due, otherwise render the listing
context. -/
def ProductCategoryView.get (enforce_paths use_search_backend : Bool)
    (munger : Munger) (full_path current_path : String)
    (backend : SQS → SearchResultSet) (all_products : List Product)
    (per_page page_num : Nat) (category : Option (Category × CatForest)) :
    CategoryResponse :=
  match ProductCategoryView.redirect_if_necessary enforce_paths current_path
      category with
  | some r => CategoryResponse.redirect r
  | none => CategoryResponse.rendered
      (ProductCategoryView.get_context_data use_search_backend munger full_path
        backend all_products per_page page_num category)

/-- The payload of the `product_viewed` signal sent by
`ProductDetailView.send_signal`. -/
structure ViewedSignal where
  product : Product
  user : User
deriving DecidableEq, Repr

/-- The context `ProductDetailView.get_context_data` assembles. -/
structure ProductContext where
  product : Product
  reviews : List ProductReview
  alert_form_user : User
  has_active_alert : Bool

/-- A terminal response of `ProductDetailView.get`: the permanent
redirect, or a rendered page with its context and candidate
templates. -/
inductive ProductResponse where
  | redirect (r : PermRedirect)
  | rendered (ctx : ProductContext) (templates : List String)

/-- Embeds `ProductDetailView.get`: fetch the product, return the
canonical-path redirect when one is due; otherwise build the context,
render, and only then send the `product_viewed` signal.  The second
component is the list of signals emitted while handling the request. -/
def ProductDetailView.get (enforce_paths : Bool) (template_name : Option String)
    (current_path : String) (u : User) (alert_store : List ProductAlert)
    (reviews : List ProductReview) (p : Product) :
    ProductResponse × List ViewedSignal :=
  match ProductDetailView.redirect_if_necessary enforce_paths current_path p with
  | some r => (ProductResponse.redirect r, [])
  | none =>
      let ctx : ProductContext :=
        ⟨p, ProductDetailView.get_reviews reviews, u,
          (ProductDetailView.get_alert_status alert_store u p).1⟩
      (ProductResponse.rendered ctx
        (ProductDetailView.get_template_names template_name
          ProductDetailView.template_folder p),
       [⟨p, u⟩])

/- ### Basic hierarchy lemmas -/

theorem mem_forestCats_iff_containsCat (f : CatForest) (x : Category) :
    x ∈ forestCats f ↔ containsCat f x = true := by
  induction f with
  | leaf => simp [forestCats, containsCat]
  | node c ch sib ihc ihs =>
      simp only [forestCats, containsCat, List.mem_cons, List.mem_append,
        Bool.or_eq_true, decide_eq_true_eq, ihc, ihs, or_assoc]
      exact or_congr ⟨fun h => h.symm, fun h => h.symm⟩ Iff.rfl

theorem get_categories_mem_iff (c : Category) (ch : CatForest) (x : Category) :
    x ∈ ProductCategoryView.get_categories (some (c, ch)) ↔
      x = c ∨ containsCat ch x = true := by
  simp [ProductCategoryView.get_categories, get_descendants_and_self,
    mem_forestCats_iff_containsCat]

/- ### Claim C1 -/

/-- A two-level store: root category `catRoot` with one child
`catChild`. -/
def catRoot : Category :=
  ⟨1, "fiction", "Fiction", "Fiction", "/catalogue/category/fiction_1/"⟩

/-- The child category of `catRoot` in the sample store. -/
def catChild : Category :=
  ⟨2, "sci-fi", "Sci-Fi", "Fiction > Sci-Fi",
    "/catalogue/category/fiction/sci-fi_2/"⟩

/-- The sample store forest: `catRoot` with single child `catChild`. -/
def storeForest : CatForest :=
  CatForest.node catRoot (CatForest.node catChild CatForest.leaf CatForest.leaf)
    CatForest.leaf

/-- C1, counterexample: `catRoot` is an ancestor of `catChild`, yet the
lineage `get_categories` computes for `catChild` does not contain it —
the lineage is not "the category itself plus every one of its
ancestors". -/
theorem C1_counterexample :
    catRoot ∈ ancestorsOf storeForest catChild ∧
    findNode storeForest catChild = some (catChild, CatForest.leaf) ∧
    catRoot ∉ ProductCategoryView.get_categories (findNode storeForest catChild) := by
  decide

/-- C1, amended: the lineage computed for listing and narrowing is the
category itself plus every one of its DESCENDANTS (not ancestors); it
has no duplicates whenever the store's category primary keys are
distinct; and for a null category the lineage is the empty sequence. -/
theorem C1_lineage_descendants (c : Category) (ch : CatForest) :
    ProductCategoryView.get_categories none = [] ∧
    (∀ x, x ∈ ProductCategoryView.get_categories (some (c, ch)) ↔
      x = c ∨ containsCat ch x = true) ∧
    (((c :: forestCats ch).map Category.cid).Nodup →
      (ProductCategoryView.get_categories (some (c, ch))).Nodup) := by
  refine ⟨rfl, fun x => get_categories_mem_iff c ch x, fun h => ?_⟩
  simpa [ProductCategoryView.get_categories, get_descendants_and_self]
    using h.of_map

/-- C1, witness for the amended theorem at the sample store. -/
theorem C1_lineage_descendants_witness :
    (((catRoot :: forestCats (CatForest.node catChild CatForest.leaf CatForest.leaf)).map
        Category.cid).Nodup) ∧
    (ProductCategoryView.get_categories
      (some (catRoot, CatForest.node catChild CatForest.leaf CatForest.leaf))).Nodup :=
  ⟨by decide,
    (C1_lineage_descendants catRoot
      (CatForest.node catChild CatForest.leaf CatForest.leaf)).2.2 (by decide)⟩

/- ### Claims C2, C3, C9 (canonical-URL redirects) -/

/-- C2: with path enforcement enabled and the product not a variant,
`redirect_if_necessary` returns no redirect iff the current path and
the canonical URL agree after URL-escaping normalization of both (the
canonical URL being stored already normalized); on disagreement it
returns the permanent redirect to the canonical URL. -/
theorem C2_nonvariant_canonical (p : Product) (current_path : String)
    (hv : p.is_variant = false)
    (hq : urlquote p.absolute_url = p.absolute_url) :
    (ProductDetailView.redirect_if_necessary true current_path p = none ↔
      urlquote current_path = urlquote p.absolute_url) ∧
    (urlquote current_path ≠ urlquote p.absolute_url →
      ProductDetailView.redirect_if_necessary true current_path p =
        some ⟨p.absolute_url⟩) := by
  have hp : p.parent = none := by
    cases hpp : p.parent with
    | none => rfl
    | some q => rw [Product.is_variant, hpp] at hv; simp at hv
  rw [ProductDetailView.redirect_if_necessary]
  simp only [if_true, hp, hq]
  by_cases he : p.absolute_url = urlquote current_path
  · simp [he]
  · have hne : urlquote current_path ≠ p.absolute_url := fun h => he h.symm
    simp [he, hne]

/-- A sample non-variant product used as concrete input. -/
def prodWidget : Product :=
  ⟨⟨10, "W1", "widgets", "/catalogue/widget_10/", []⟩, none⟩

/-- C2, witness at `prodWidget` and its own canonical path. -/
theorem C2_nonvariant_canonical_witness :
    prodWidget.is_variant = false ∧
    urlquote prodWidget.absolute_url = prodWidget.absolute_url ∧
    (ProductDetailView.redirect_if_necessary true "/catalogue/widget_10/"
        prodWidget = none ↔
      urlquote "/catalogue/widget_10/" = urlquote prodWidget.absolute_url) :=
  ⟨by decide, by decide,
    (C2_nonvariant_canonical prodWidget "/catalogue/widget_10/" (by decide)
      (by decide)).1⟩

/-- C3: with path enforcement enabled, a variant product always yields
a permanent redirect to its parent's canonical URL, whatever the
current path. -/
theorem C3_variant_redirects_to_parent (p : Product) (parent : ProductBase)
    (current_path : String) (hp : p.parent = some parent) :
    p.is_variant = true ∧
    ProductDetailView.redirect_if_necessary true current_path p =
      some ⟨parent.absolute_url⟩ := by
  constructor
  · rw [Product.is_variant, hp]; rfl
  · rw [ProductDetailView.redirect_if_necessary]
    simp [hp]

/-- A sample variant product whose parent is `prodWidget`'s base. -/
def prodVariant : Product :=
  ⟨⟨11, "W1-red", "widgets", "/catalogue/widget-red_11/", []⟩,
    some ⟨10, "W1", "widgets", "/catalogue/widget_10/", []⟩⟩

/-- C3, witness at `prodVariant` on an arbitrary concrete path. -/
theorem C3_variant_redirects_to_parent_witness :
    prodVariant.is_variant = true ∧
    ProductDetailView.redirect_if_necessary true "/anywhere/" prodVariant =
      some ⟨"/catalogue/widget_10/"⟩ :=
  C3_variant_redirects_to_parent prodVariant
    ⟨10, "W1", "widgets", "/catalogue/widget_10/", []⟩ "/anywhere/" rfl

/-- C9: with path enforcement disabled, neither view ever redirects —
for any product (variants included) and any category — and the product
request renders directly. -/
theorem C9_enforcement_disabled (current_path : String) (p : Product)
    (category : Option (Category × CatForest)) (template_name : Option String)
    (u : User) (store : List ProductAlert) (reviews : List ProductReview) :
    ProductDetailView.redirect_if_necessary false current_path p = none ∧
    ProductCategoryView.redirect_if_necessary false current_path category = none ∧
    ∃ ctx tms,
      (ProductDetailView.get false template_name current_path u store reviews p).1 =
        ProductResponse.rendered ctx tms := by
  refine ⟨rfl, rfl, ?_⟩
  rw [ProductDetailView.get]
  exact ⟨_, _, rfl⟩

/- ### Claim C4 (search narrowing) -/

/-- The narrow expression as the spec words it: a single disjunctive
exact-match filter whose clauses are the quoted full hierarchical names
of the given categories. -/
def specNarrowExpr (cats : List Category) : String :=
  "category_exact:(" ++
    String.intercalate " OR " (cats.map fun c => "\"" ++ c.full_name ++ "\"") ++
    ")"

/-- C4: for a non-empty lineage the search queryset carries exactly one
narrow filter — the disjunction of the quoted full hierarchical names
of every lineage category — and eager entity joining is requested; for
an empty lineage no narrow filter is applied (but entities are still
eagerly joined). -/
theorem C4_search_queryset_narrow (category : Option (Category × CatForest)) :
    ProductCategoryView.get_search_queryset category =
      ⟨if ProductCategoryView.get_categories category = [] then []
        else [specNarrowExpr (ProductCategoryView.get_categories category)],
       true⟩ := by
  rw [ProductCategoryView.get_search_queryset]
  by_cases h : ProductCategoryView.get_categories category = []
  · simp [h, facets.base_sqs, SQS.load_all]
  · simp [h, facets.base_sqs, SQS.load_all, SQS.narrow, specNarrowExpr]

/- ### Claim C6 (database listing) -/

/-- C6: with the search backend disabled, an empty lineage (no resolved
category) yields the full browsable product set unfiltered; a resolved
category yields exactly the products carrying at least one lineage
category, and the result never holds duplicates. -/
theorem C6_model_queryset (all_products : List Product) (c : Category)
    (ch : CatForest) (p : Product) :
    ProductCategoryView.get_queryset false all_products none =
      Listing.db all_products ∧
    ProductCategoryView.get_model_queryset all_products none = all_products ∧
    ProductCategoryView.get_queryset false all_products (some (c, ch)) =
      Listing.db (ProductCategoryView.get_model_queryset all_products
        (some (c, ch))) ∧
    (p ∈ ProductCategoryView.get_model_queryset all_products (some (c, ch)) ↔
      p ∈ all_products ∧ ∃ cat ∈ ProductCategoryView.get_categories
        (some (c, ch)), cat ∈ p.categories) ∧
    (ProductCategoryView.get_model_queryset all_products (some (c, ch))).Nodup := by
  refine ⟨rfl, rfl, rfl, ?_, ?_⟩
  · rw [ProductCategoryView.get_model_queryset]
    rw [List.mem_dedup]
    rw [categoriesInRows]
    simp only [List.mem_flatMap, List.mem_map, List.mem_filter]
    constructor
    · rintro ⟨q, hq, ⟨cat, ⟨hcat, hmem⟩, rfl⟩⟩
      exact ⟨hq, cat, by simpa using hmem, hcat⟩
    · rintro ⟨hp, cat, hmem, hcat⟩
      exact ⟨p, hp, cat, ⟨hcat, by simpa using hmem⟩, rfl⟩
  · rw [ProductCategoryView.get_model_queryset]
    exact List.nodup_dedup _

/- ### Claim C7 (alert status) -/

/-- C7: an unauthenticated user always gets `false` with zero
subscription-store queries; an authenticated user gets `true` exactly
when an active-status record exists for this (user, product) pair, at
the cost of one store query. -/
theorem C7_alert_status (store : List ProductAlert) (u : User) (p : Product) :
    (u.is_authenticated = false →
      ProductDetailView.get_alert_status store u p = (false, 0)) ∧
    (u.is_authenticated = true →
      ((ProductDetailView.get_alert_status store u p).1 = true ↔
        ∃ a ∈ store, a.user_id = u.uid ∧ a.product_id = p.pid ∧
          a.status = AlertState.active) ∧
      (ProductDetailView.get_alert_status store u p).2 = 1) := by
  constructor
  · intro h
    rw [ProductDetailView.get_alert_status, h]
    rfl
  · intro h
    rw [ProductDetailView.get_alert_status, h]
    simp only [if_true]
    constructor
    · simp only [Bool.not_eq_true', List.isEmpty_eq_false_iff_exists_mem,
        List.mem_filter]
      constructor
      · rintro ⟨a, ha, hcond⟩
        simp only [Bool.and_eq_true, decide_eq_true_eq] at hcond
        exact ⟨a, ha, hcond.1.2, hcond.1.1, hcond.2⟩
      · rintro ⟨a, ha, h1, h2, h3⟩
        exact ⟨a, ha, by simp [h1, h2, h3]⟩
    · trivial

/-- C7, witness: both branches at concrete inputs — an unauthenticated
user over a store holding a matching active alert still gets
`(false, 0)`; the authenticated user gets an existence-backed `true`
with one query. -/
theorem C7_alert_status_witness :
    ProductDetailView.get_alert_status [⟨7, 10, AlertState.active⟩]
      ⟨7, false⟩ prodWidget = (false, 0) ∧
    ((ProductDetailView.get_alert_status [⟨7, 10, AlertState.active⟩]
        ⟨7, true⟩ prodWidget).1 = true ↔
      ∃ a ∈ [(⟨7, 10, AlertState.active⟩ : ProductAlert)], a.user_id = 7 ∧
        a.product_id = prodWidget.pid ∧ a.status = AlertState.active) :=
  ⟨(C7_alert_status [⟨7, 10, AlertState.active⟩] ⟨7, false⟩ prodWidget).1 rfl,
   (C7_alert_status [⟨7, 10, AlertState.active⟩] ⟨7, true⟩ prodWidget).2 rfl |>.1⟩

/- ### Claim C8 (template selection) -/

/-- C8: a configured (truthy) override template is returned alone;
otherwise exactly the per-UPC, per-product-class and generic detail
templates are returned, in that priority order. -/
theorem C8_template_names (template_name : Option String) (t : String)
    (p : Product) :
    (template_name = some t → t ≠ "" →
      ProductDetailView.get_template_names template_name
        ProductDetailView.template_folder p = [t]) ∧
    (template_name = none →
      ProductDetailView.get_template_names template_name
        ProductDetailView.template_folder p =
        ["catalogue/detail-for-upc-" ++ p.upc ++ ".html",
         "catalogue/detail-for-class-" ++ p.class_slug ++ ".html",
         "catalogue/detail.html"]) := by
  constructor
  · rintro rfl ht
    rw [ProductDetailView.get_template_names]
    have h2 : t.isEmpty = false := by
      cases hh : t.isEmpty
      · rfl
      · exact absurd ((String.isEmpty_iff t).mp hh) ht
    have hset : templateNameSet (some t) = true := by
      rw [templateNameSet, Bool.not_eq_true', h2]
    simp [hset]
  · rintro rfl
    rfl

/-- A sample product matching the spec's worked example: UPC `ABC123`,
product-class slug `books`. -/
def prodBook : Product :=
  ⟨⟨20, "ABC123", "books", "/catalogue/abc123_20/", []⟩, none⟩

/-- C8, witness: the override branch at a concrete override, and the
spec's worked example — no override, UPC `ABC123`, class slug `books`
gives exactly the three claimed identifiers in order. -/
theorem C8_template_names_witness :
    ProductDetailView.get_template_names (some "custom.html")
      ProductDetailView.template_folder prodBook = ["custom.html"] ∧
    ProductDetailView.get_template_names none
      ProductDetailView.template_folder prodBook =
      ["catalogue/detail-for-upc-ABC123.html",
       "catalogue/detail-for-class-books.html",
       "catalogue/detail.html"] := by
  refine ⟨(C8_template_names (some "custom.html") "custom.html" prodBook).1 rfl
    (by decide), ?_⟩
  rw [(C8_template_names none "" prodBook).2 rfl]
  rfl

/- ### Claim C5 (redirect short-circuits the request) -/

/-- C5: whenever `redirect_if_necessary` yields a redirect, the request
terminates with exactly that redirect — no context is built, nothing is
rendered and no `product_viewed` signal is emitted (in either view);
conversely a signal is only ever emitted together with a rendered
response. -/
theorem C5_redirect_short_circuits (enforce_paths : Bool)
    (template_name : Option String) (current_path : String) (u : User)
    (alert_store : List ProductAlert) (reviews : List ProductReview)
    (p : Product) (use_search_backend : Bool) (munger : Munger)
    (full_path : String) (backend : SQS → SearchResultSet)
    (all_products : List Product) (per_page page_num : Nat)
    (category : Option (Category × CatForest)) :
    (∀ r, ProductDetailView.redirect_if_necessary enforce_paths current_path p =
        some r →
      ProductDetailView.get enforce_paths template_name current_path u
        alert_store reviews p = (ProductResponse.redirect r, [])) ∧
    ((ProductDetailView.get enforce_paths template_name current_path u
        alert_store reviews p).2 ≠ [] →
      ∃ ctx tms, (ProductDetailView.get enforce_paths template_name current_path
        u alert_store reviews p).1 = ProductResponse.rendered ctx tms) ∧
    (∀ r, ProductCategoryView.redirect_if_necessary enforce_paths current_path
        category = some r →
      ProductCategoryView.get enforce_paths use_search_backend munger full_path
        current_path backend all_products per_page page_num category =
        CategoryResponse.redirect r) := by
  refine ⟨fun r hr => ?_, fun hs => ?_, fun r hr => ?_⟩
  · rw [ProductDetailView.get, hr]
  · rw [ProductDetailView.get] at hs ⊢
    cases hred : ProductDetailView.redirect_if_necessary enforce_paths
        current_path p with
    | some r => rw [hred] at hs; simp at hs
    | none => exact ⟨_, _, rfl⟩
  · rw [ProductCategoryView.get, hr]

/-- C5, witness: at the variant product `prodVariant` the redirect is
non-null and the whole request is that redirect with no signal; at a
category whose canonical URL differs from the current path the listing
request likewise terminates in the redirect. -/
theorem C5_redirect_short_circuits_witness :
    ProductDetailView.get true none "/anywhere/" ⟨7, true⟩ [] [] prodVariant =
      (ProductResponse.redirect ⟨"/catalogue/widget_10/"⟩, []) ∧
    ProductCategoryView.get true true (fun _ _ _ => []) "/x/" "/old-path/"
      (fun _ => ⟨[], []⟩) [] 20 1 (some (catRoot, CatForest.leaf)) =
      CategoryResponse.redirect ⟨"/catalogue/category/fiction_1/"⟩ :=
  ⟨(C5_redirect_short_circuits true none "/anywhere/" ⟨7, true⟩ [] []
      prodVariant true (fun _ _ _ => []) "/x/" (fun _ => ⟨[], []⟩) [] 20 1
      none).1 ⟨"/catalogue/widget_10/"⟩ (by decide),
   (C5_redirect_short_circuits true none "/old-path/" ⟨7, true⟩ [] []
      prodVariant true (fun _ _ _ => []) "/x/" (fun _ => ⟨[], []⟩) [] 20 1
      (some (catRoot, CatForest.leaf))).2.2 ⟨"/catalogue/category/fiction_1/"⟩
      (by decide)⟩

/- ### Claim C10 (facet data comes from the full result set) -/

/-- C10: the shaped facet data is the munger's output on the FULL
result set's facet counts (with the request path and empty selections),
so it — and the `has_facets` flag — are unchanged under any change of
the paginated page; `has_facets` holds iff some facet field has a
non-empty `results` list; the paginated rows contribute only the
extracted product list. -/
theorem C10_facets_from_full_set (munger : Munger) (full_path : String)
    (object_list : SearchResultSet) (page pageB : List SearchResult) :
    (ProductCategoryView.get_search_context_data munger full_path object_list
        page).facet_data = munger full_path [] object_list.facet_counts ∧
    (ProductCategoryView.get_search_context_data munger full_path object_list
        page).facet_data =
      (ProductCategoryView.get_search_context_data munger full_path object_list
        pageB).facet_data ∧
    (ProductCategoryView.get_search_context_data munger full_path object_list
        page).has_facets =
      (ProductCategoryView.get_search_context_data munger full_path object_list
        pageB).has_facets ∧
    ((ProductCategoryView.get_search_context_data munger full_path object_list
        page).has_facets = true ↔
      ∃ kv ∈ munger full_path [] object_list.facet_counts,
        kv.2.results ≠ []) ∧
    (ProductCategoryView.get_search_context_data munger full_path object_list
        page).products = page.map (fun r => r.object) := by
  refine ⟨rfl, rfl, rfl, ?_, rfl⟩
  rw [ProductCategoryView.get_search_context_data]
  simp only [List.any_eq_true, Bool.not_eq_true', List.isEmpty_eq_false_iff_exists_mem]
  constructor
  · rintro ⟨kv, hkv, e, he⟩
    exact ⟨kv, hkv, fun hnil => by rw [hnil] at he; exact List.not_mem_nil e he⟩
  · rintro ⟨kv, hkv, hne⟩
    obtain ⟨e, he⟩ := List.exists_mem_of_ne_nil kv.2.results hne
    exact ⟨kv, hkv, e, he⟩
